import Mathlib

/-!
Shallow embedding of the trading-monitor risk core.

Two React components define the behavior under verification:
* `src/components/TradingMonitor.tsx` — the risk color classifiers
  (`getDrawdownColor`, `getTimeColor`, `getPositionSizeColor`) and a
  simulation tick that updates `dailyPL`, `currentDrawdown` (clamped below
  at `maxDrawdown`) and `longestPosition`.
* `src/unnamed/part_000` — the dashboard (positions, health, logs), the
  liquidation handler `closePosition`, the simulation tick, and the
  `SafeTriggerButton` hold-to-confirm gate.

JavaScript numbers are modelled as rationals (`ℚ`); every constant that the
source draws from `Math.random()` or the wall clock is an explicit
parameter of the embedded function.
-/

/-! ### Severity colors (src/components/TradingMonitor.tsx)

The classifiers return hex color strings; the spec reads `#FF3737` as
CRITICAL, `#FFA500` as WARNING and `#00D26A` as NORMAL. -/

def critColor : String := "#FF3737"

def warnColor : String := "#FFA500"

def normColor : String := "#00D26A"

/-- Function `getDrawdownColor` from `TradingMonitor.tsx` (lines 52-57), parameterized
by the two fields of `data` it reads: `currentDrawdown` and `maxDrawdown`.
`const ratio = Math.abs(data.currentDrawdown / data.maxDrawdown);
 if (ratio > 0.8) return red; if (ratio > 0.5) return orange; return green`. -/
def getDrawdownColor (currentDrawdown maxDrawdown : ℚ) : String :=
  if |currentDrawdown / maxDrawdown| > 0.8 then critColor
  else if |currentDrawdown / maxDrawdown| > 0.5 then warnColor
  else normColor

/-- Function `getTimeColor` from `TradingMonitor.tsx` (lines 59-63), parameterized by
`longestPosition` and `maxPositionTime`:
`if (longest > maxTime) return red;
 if (longest > maxTime * 0.8) return orange; return green`. -/
def getTimeColor (longestPosition maxPositionTime : ℚ) : String :=
  if longestPosition > maxPositionTime then critColor
  else if longestPosition > maxPositionTime * 0.8 then warnColor
  else normColor

/-- Function `getPositionSizeColor` from `TradingMonitor.tsx` (lines 65-69),
parameterized by `largestPosition` and `maxPositionSize`. -/
def getPositionSizeColor (largestPosition maxPositionSize : ℚ) : String :=
  if largestPosition > maxPositionSize then critColor
  else if largestPosition > maxPositionSize * 0.8 then warnColor
  else normColor

/-! ### TradingData and its simulation tick (src/components/TradingMonitor.tsx) -/

inductive AlgoState | ON | OFF
deriving DecidableEq

inductive ConnStatus | CONNECTED | DISCONNECTED
deriving DecidableEq

/-- The `TradingData` record of `TradingMonitor.tsx`. -/
structure TradingData where
  algoState : AlgoState
  dailyPL : ℚ
  winRate : ℚ
  activePositions : ℤ
  pendingOrders : ℤ
  currentDrawdown : ℚ
  maxDrawdown : ℚ
  longestPosition : ℚ
  maxPositionTime : ℚ
  largestPosition : ℚ
  maxPositionSize : ℚ
  brokerStatus : ConnStatus
  dataFeedStatus : ConnStatus
  lastUpdate : String
deriving DecidableEq

/-- The initial `useState` value of `TradingMonitor.tsx` (lines 21-36); the
initial ISO timestamp is an arbitrary string parameter. -/
def initTradingData (ts : String) : TradingData :=
  { algoState := AlgoState.ON
    dailyPL := 2847.50
    winRate := 73
    activePositions := 3
    pendingOrders := 2
    currentDrawdown := -150
    maxDrawdown := -500
    longestPosition := 8
    maxPositionTime := 15
    largestPosition := 12
    maxPositionSize := 20
    brokerStatus := ConnStatus.CONNECTED
    dataFeedStatus := ConnStatus.CONNECTED
    lastUpdate := ts }

/-- One simulation interval of `TradingMonitor.tsx` (lines 38-50).
`r1` and `r2` stand for the two `Math.random()` draws (each in `[0,1)`),
`ts` for the fresh timestamp:
`dailyPL += (r1 - 0.3) * 50;
 currentDrawdown = Math.max(currentDrawdown + (r2 - 0.5) * 20, maxDrawdown);
 longestPosition = Math.min(longestPosition + 0.5, 25)`. -/
def tickTradingData (r1 r2 : ℚ) (ts : String) (d : TradingData) : TradingData :=
  { d with
    dailyPL := d.dailyPL + (r1 - 0.3) * 50
    currentDrawdown := max (d.currentDrawdown + (r2 - 0.5) * 20) d.maxDrawdown
    longestPosition := min (d.longestPosition + 0.5) 25
    lastUpdate := ts }

/-- States of `TradingMonitor.tsx` reachable from the initial state through
simulation ticks; each `Math.random()` draw lies in `[0, 1)`. -/
inductive ReachableTD : TradingData → Prop
  | init (ts : String) : ReachableTD (initTradingData ts)
  | step (r1 r2 : ℚ) (ts : String) (d : TradingData) :
      0 ≤ r1 → r1 < 1 → 0 ≤ r2 → r2 < 1 →
      ReachableTD d → ReachableTD (tickTradingData r1 r2 ts d)

/-! ### The dashboard data model (src/unnamed/part_000) -/

inductive Side | LONG | SHORT
deriving DecidableEq

/-- The `Position` record of `src/unnamed/part_000` (lines 7-18). -/
structure Position where
  id : String
  symbol : String
  side : Side
  pnl : ℚ
  entryPrice : ℚ
  markPrice : ℚ
  zScore : ℚ
  durationMinutes : ℚ
  maxDurationMinutes : ℚ
  priceHistory : List ℚ
deriving DecidableEq

inductive LogLevel | INFO | WARN | CRIT
deriving DecidableEq

/-- The `LogMessage` record of `src/unnamed/part_000` (lines 20-25); the
`id` is `Date.now()` at append time. -/
structure LogMessage where
  id : ℤ
  timestamp : String
  level : LogLevel
  message : String
deriving DecidableEq

inductive HealthStatus | ALIVE | DEGRADED | HALTED
deriving DecidableEq

/-- The `health` sub-record of `DashboardData` (lines 30-37). -/
structure Health where
  latencyMs : ℚ
  apiRequestsRemaining : ℤ
  apiLimitMax : ℤ
  memoryUsageMB : ℚ
  totalMemoryMB : ℚ
  status : HealthStatus
deriving DecidableEq

/-- The `DashboardData` record of `src/unnamed/part_000` (lines 27-40). -/
structure DashboardData where
  dailyPnL : ℚ
  winRate : ℚ
  health : Health
  positions : List Position
  logs : List LogMessage
deriving DecidableEq

/-- Handler `closePosition` from `src/unnamed/part_000` (lines 178-189): filters the
position with the given id out of the book and unconditionally appends a
WARN liquidation entry. `now` stands for `Date.now()` and `ts` for the
formatted timestamp. -/
def closePosition (id sym : String) (now : ℤ) (ts : String)
    (d : DashboardData) : DashboardData :=
  { d with
    positions := d.positions.filter (fun p => p.id ≠ id)
    logs := d.logs ++
      [{ id := now, timestamp := ts, level := LogLevel.WARN,
         message := "MANUAL LIQUIDATION: " ++ sym ++ " CLOSED" }] }

/-- The log update of one simulation interval in `src/unnamed/part_000`
(lines 198-208), taken on the ticks where `Math.random() > 0.9` appends an
entry: `newLogs.push(entry); if (newLogs.length > 50) newLogs.shift()`. -/
def tickAppendLog (e : LogMessage) (logs : List LogMessage) : List LogMessage :=
  let l := logs ++ [e]
  if 50 < l.length then l.drop 1 else l

/-- The health update of one simulation interval in `src/unnamed/part_000`
(lines 195, 210-218). `noise` stands for `(Math.random() - 0.5) * 40`:
`newLatency = Math.max(20, Math.floor(latencyMs + noise));
 status = newLatency > 300 ? DEGRADED : ALIVE;
 apiRequestsRemaining = Math.max(0, apiRequestsRemaining - 1)`. -/
def updateHealth (noise : ℚ) (h : Health) : Health :=
  let newLatency : ℤ := max 20 ⌊h.latencyMs + noise⌋
  { h with
    latencyMs := (newLatency : ℚ)
    status := if newLatency > 300 then HealthStatus.DEGRADED
              else HealthStatus.ALIVE
    apiRequestsRemaining := max 0 (h.apiRequestsRemaining - 1) }

/-- The per-position update of one simulation interval in
`src/unnamed/part_000` (lines 220-224). `pnlDelta` stands for
`(Math.random() - 0.5) * 10` and `priceDelta` for the analogous draw of the
appended sample:
`pnl += pnlDelta;
 priceHistory = [...priceHistory.slice(1), priceHistory[7] + priceDelta]`.
The source indexes `priceHistory[7]`, defined when the history holds at
least 8 samples (every history in the repository holds exactly 8). -/
def tickPosition (pnlDelta priceDelta : ℚ) (p : Position) : Position :=
  { p with
    pnl := p.pnl + pnlDelta
    priceHistory := p.priceHistory.drop 1 ++ [p.priceHistory.getD 7 0 + priceDelta] }

/-- The positions update of one simulation interval (lines 220-224): every
position in the book is mapped through `tickPosition`, with its own pair of
random deltas given by `pd` and `hd`. -/
def tickPositions (pd hd : Position → ℚ) (ps : List Position) : List Position :=
  ps.map (fun p => tickPosition (pd p) (hd p) p)

/-- Flag `isStale` from `src/unnamed/part_000` (line 275):
`pos.durationMinutes > pos.maxDurationMinutes`. -/
def isStale (durationMinutes maxDurationMinutes : ℚ) : Bool :=
  durationMinutes > maxDurationMinutes

/-- The staleness progress bar width from `src/unnamed/part_000` (line 276):
`Math.min(100, (durationMinutes / maxDurationMinutes) * 100)`, a percentage. -/
def staleProgress (durationMinutes maxDurationMinutes : ℚ) : ℚ :=
  min 100 ((durationMinutes / maxDurationMinutes) * 100)

/-! ### The SafeTriggerButton hold-to-confirm gate (src/unnamed/part_000)

The button keeps `progress` (percent), the `isPressing` flag and an interval
timer. The interval callback (lines 105-114) runs every 50ms while the timer
is live:
`if (prev >= 100) { clearInterval(timer); onTrigger(); return 0; }
 return prev + (100 / (HOLD_DURATION / 50));`
`endPress` (lines 97-101) clears the flag, resets `progress` to 0 and clears
the timer. `fired` counts the invocations of the bound `onTrigger` callback. -/

/-- Constant `HOLD_DURATION = 800` (line 93), in milliseconds. -/
def HOLD_DURATION : ℚ := 800

structure GateState where
  isPressing : Bool
  timerActive : Bool
  progress : ℚ
  fired : ℕ
deriving DecidableEq

/-- The initial gate state: idle, no timer, zero progress. -/
def gateInit : GateState :=
  { isPressing := false, timerActive := false, progress := 0, fired := 0 }

/-- Action `startPress` (line 95) sets `isPressing`; the effect (lines 103-114)
then starts the interval timer. -/
def startPress (s : GateState) : GateState :=
  { s with isPressing := true, timerActive := true }

/-- Action `endPress` (lines 97-101): clears `isPressing`, resets `progress` to 0
and clears the interval timer. -/
def endPress (s : GateState) : GateState :=
  { s with isPressing := false, timerActive := false, progress := 0 }

/-- One 50ms interval callback (lines 105-114). When the timer is live:
if `progress >= 100` the timer is cleared, `onTrigger` fires and progress
returns to 0; otherwise progress advances by `100 / (HOLD_DURATION / 50)`
(= 6.25). -/
def gateTick (s : GateState) : GateState :=
  if s.timerActive then
    if s.progress ≥ 100 then
      { s with timerActive := false, fired := s.fired + 1, progress := 0 }
    else
      { s with progress := s.progress + 100 / (HOLD_DURATION / 50) }
  else s

/-- A fresh press from the idle state. -/
def freshPress : GateState := startPress gateInit

/-- Closed form for the gate state after `n` interval ticks of an
uninterrupted press: progress climbs in 6.25 steps for 16 ticks (800ms),
and the 17th tick (850ms) fires the callback and resets. -/
def gateAfter (n : ℕ) : GateState :=
  if n ≤ 16 then
    { isPressing := true, timerActive := true, progress := 25 / 4 * n, fired := 0 }
  else
    { isPressing := true, timerActive := false, progress := 0, fired := 1 }

/-! ### Helper lemmas -/

lemma warnColor_ne_critColor : warnColor ≠ critColor := by decide

lemma normColor_ne_critColor : normColor ≠ critColor := by decide

lemma critColor_ne_warnColor : critColor ≠ warnColor := by decide

lemma normColor_ne_warnColor : normColor ≠ warnColor := by decide

lemma critColor_ne_normColor : critColor ≠ normColor := by decide

lemma warnColor_ne_normColor : warnColor ≠ normColor := by decide

lemma getTimeColor_crit_iff (v m : ℚ) : getTimeColor v m = critColor ↔ m < v := by
  unfold getTimeColor
  split_ifs with h1 h2
  · simpa using h1
  · exact ⟨fun h => absurd h warnColor_ne_critColor, fun h => absurd h h1⟩
  · exact ⟨fun h => absurd h normColor_ne_critColor, fun h => absurd h h1⟩

lemma getTimeColor_warn_iff (v m : ℚ) :
    getTimeColor v m = warnColor ↔ v ≤ m ∧ m * 0.8 < v := by
  unfold getTimeColor
  split_ifs with h1 h2
  · exact ⟨fun h => absurd h critColor_ne_warnColor, fun h => absurd h1 (not_lt.mpr h.1)⟩
  · exact ⟨fun _ => ⟨not_lt.mp h1, h2⟩, fun _ => rfl⟩
  · exact ⟨fun h => absurd h normColor_ne_warnColor, fun h => absurd h.2 h2⟩

lemma getTimeColor_norm_iff (v m : ℚ) :
    getTimeColor v m = normColor ↔ v ≤ m ∧ v ≤ m * 0.8 := by
  unfold getTimeColor
  split_ifs with h1 h2
  · exact ⟨fun h => absurd h critColor_ne_normColor, fun h => absurd h1 (not_lt.mpr h.1)⟩
  · exact ⟨fun h => absurd h warnColor_ne_normColor, fun h => absurd h2 (not_lt.mpr h.2)⟩
  · exact ⟨fun _ => ⟨not_lt.mp h1, not_lt.mp h2⟩, fun _ => rfl⟩

lemma getPositionSizeColor_eq_getTimeColor (v m : ℚ) :
    getPositionSizeColor v m = getTimeColor v m := rfl

lemma getDrawdownColor_crit_iff (c m : ℚ) :
    getDrawdownColor c m = critColor ↔ 0.8 < |c / m| := by
  unfold getDrawdownColor
  split_ifs with h1 h2
  · simpa using h1
  · exact ⟨fun h => absurd h warnColor_ne_critColor, fun h => absurd h h1⟩
  · exact ⟨fun h => absurd h normColor_ne_critColor, fun h => absurd h h1⟩

lemma getDrawdownColor_warn_iff (c m : ℚ) :
    getDrawdownColor c m = warnColor ↔ 0.5 < |c / m| ∧ |c / m| ≤ 0.8 := by
  unfold getDrawdownColor
  split_ifs with h1 h2
  · exact ⟨fun h => absurd h critColor_ne_warnColor, fun h => absurd h1 (not_lt.mpr h.2)⟩
  · exact ⟨fun _ => ⟨h2, not_lt.mp h1⟩, fun _ => rfl⟩
  · exact ⟨fun h => absurd h normColor_ne_warnColor, fun h => absurd h.1 h2⟩

lemma getDrawdownColor_norm_iff (c m : ℚ) :
    getDrawdownColor c m = normColor ↔ |c / m| ≤ 0.5 := by
  unfold getDrawdownColor
  split_ifs with h1 h2
  · exact ⟨fun h => absurd h critColor_ne_normColor,
      fun h => absurd h1 (not_lt.mpr (h.trans (by norm_num)))⟩
  · exact ⟨fun h => absurd h warnColor_ne_normColor, fun h => absurd h2 (not_lt.mpr h)⟩
  · exact ⟨fun _ => not_lt.mp h2, fun _ => rfl⟩

/-- Closed form for an uninterrupted press: after `n` interval ticks the gate
is exactly `gateAfter n`. -/
lemma gateAfter_spec (n : ℕ) : gateTick^[n] freshPress = gateAfter n := by
  induction n with
  | zero =>
      simp [freshPress, startPress, gateInit, gateAfter]
  | succ n ih =>
      rw [Function.iterate_succ_apply', ih]
      by_cases h17 : n ≤ 16
      · by_cases h16 : n ≤ 15
        · have h1 : n + 1 ≤ 16 := by omega
          have hn : (n : ℚ) ≤ 15 := by exact_mod_cast h16
          have hc : ¬ ((25 / 4 * (n : ℚ)) ≥ 100) := by nlinarith
          simp only [gateAfter, if_pos h17, if_pos h1, gateTick, HOLD_DURATION]
          simp only [if_true]
          rw [if_neg hc]
          simp only [GateState.mk.injEq, true_and, and_true]
          push_cast
          ring_nf
        · have hn : n = 16 := by omega
          subst hn
          have h1 : ¬ (16 + 1 ≤ 16) := by omega
          simp only [gateAfter, if_pos h17, if_neg h1, gateTick, HOLD_DURATION]
          norm_num
      · have h1 : ¬ (n + 1 ≤ 16) := by omega
        simp only [gateAfter, if_neg h17, if_neg h1, gateTick]
        simp

/-! ### Concrete inputs used by counterexamples and witnesses -/

/-- The `BTC/USD` position of the initial mock state of `src/unnamed/part_000`
(line 167). -/
def posBTC : Position :=
  { id := "1", symbol := "BTC/USD", side := Side.LONG, pnl := 450.00,
    entryPrice := 64000, markPrice := 64500, zScore := -2.4,
    durationMinutes := 14, maxDurationMinutes := 45,
    priceHistory := [64000, 63950, 63900, 64100, 64200, 64150, 64300, 64500] }

/-- The initial health record of `src/unnamed/part_000` (lines 158-165),
with the API quota run down to its final request (1849 ticks decrement
`apiRequestsRemaining` from 1850 to 1). -/
def healthLastQuota : Health :=
  { latencyMs := 45, apiRequestsRemaining := 1, apiLimitMax := 2000,
    memoryUsageMB := 450, totalMemoryMB := 1024, status := HealthStatus.ALIVE }

/-! ### C1 — the shared tier rule -/

/-- Claim C1 counterexample: at ratio 0.9 the drawdown classifier returns
CRITICAL while the time and size classifiers return WARNING, so the three
classifiers do not share one tier rule and the drawdown classifier does not
follow the `ratio > 1.0 ↔ CRITICAL` rule. -/
theorem c1_counterexample :
    getDrawdownColor (-9) (-10) = critColor ∧
    getTimeColor 9 10 = warnColor ∧
    getPositionSizeColor 9 10 = warnColor := by
  have habs : |(-9 : ℚ) / (-10)| = 9 / 10 := by
    rw [abs_of_nonneg (by norm_num : (0 : ℚ) ≤ (-9) / (-10))]
    norm_num
  refine ⟨(getDrawdownColor_crit_iff _ _).mpr (by rw [habs]; norm_num), ?_, ?_⟩
  · exact (getTimeColor_warn_iff _ _).mpr (by norm_num)
  · rw [getPositionSizeColor_eq_getTimeColor]
    exact (getTimeColor_warn_iff _ _).mpr (by norm_num)

/-- Claim C1 (amended): for max > 0 the time and size classifiers agree with
each other and follow the rule CRITICAL iff ratio > 1.0, WARNING iff
0.8 < ratio ≤ 1.0, NORMAL iff ratio ≤ 0.8; the drawdown classifier instead
uses the thresholds 0.8 and 0.5 on ratio = |value/max|. -/
theorem c1_tier_rules (v m : ℚ) (hm : 0 < m) :
    (getTimeColor v m = getPositionSizeColor v m) ∧
    ((getTimeColor v m = critColor) ↔ 1 < v / m) ∧
    ((getTimeColor v m = warnColor) ↔ (0.8 < v / m ∧ v / m ≤ 1)) ∧
    ((getTimeColor v m = normColor) ↔ v / m ≤ 0.8) ∧
    ((getDrawdownColor v m = critColor) ↔ 0.8 < |v / m|) ∧
    ((getDrawdownColor v m = warnColor) ↔ (0.5 < |v / m| ∧ |v / m| ≤ 0.8)) ∧
    ((getDrawdownColor v m = normColor) ↔ |v / m| ≤ 0.5) := by
  refine ⟨(getPositionSizeColor_eq_getTimeColor v m).symm, ?_, ?_, ?_,
    getDrawdownColor_crit_iff v m, getDrawdownColor_warn_iff v m,
    getDrawdownColor_norm_iff v m⟩
  · rw [getTimeColor_crit_iff, one_lt_div hm]
  · rw [getTimeColor_warn_iff, div_le_one hm, lt_div_iff hm]
    constructor
    · rintro ⟨h1, h2⟩
      exact ⟨by linarith, h1⟩
    · rintro ⟨h1, h2⟩
      exact ⟨h2, by linarith⟩
  · rw [getTimeColor_norm_iff, div_le_iff hm]
    constructor
    · rintro ⟨_, h2⟩
      linarith
    · intro h
      constructor <;> nlinarith

/-- Witness for `c1_tier_rules` at (value, max) = (9, 10). -/
theorem c1_tier_rules_witness :
    (0 : ℚ) < 10 ∧
    ((getTimeColor 9 10 = getPositionSizeColor 9 10) ∧
     ((getTimeColor 9 10 = critColor) ↔ 1 < (9 : ℚ) / 10) ∧
     ((getTimeColor 9 10 = warnColor) ↔ (0.8 < (9 : ℚ) / 10 ∧ (9 : ℚ) / 10 ≤ 1)) ∧
     ((getTimeColor 9 10 = normColor) ↔ (9 : ℚ) / 10 ≤ 0.8) ∧
     ((getDrawdownColor 9 10 = critColor) ↔ 0.8 < |(9 : ℚ) / 10|) ∧
     ((getDrawdownColor 9 10 = warnColor) ↔ (0.5 < |(9 : ℚ) / 10| ∧ |(9 : ℚ) / 10| ≤ 0.8)) ∧
     ((getDrawdownColor 9 10 = normColor) ↔ |(9 : ℚ) / 10| ≤ 0.5)) :=
  ⟨by norm_num, c1_tier_rules 9 10 (by norm_num)⟩

/-! ### C2 — health status derivation -/

/-- Claim C2 counterexample: an update that exhausts the remaining API quota
(1 → 0) with low latency yields status ALIVE, not HALTED — the simulation
derives the status from latency alone and never produces HALTED. -/
theorem c2_counterexample :
    (updateHealth 0 healthLastQuota).apiRequestsRemaining = 0 ∧
    (updateHealth 0 healthLastQuota).status = HealthStatus.ALIVE ∧
    (updateHealth 0 healthLastQuota).status ≠ HealthStatus.HALTED := by
  unfold updateHealth healthLastQuota
  norm_num
  decide

/-- Claim C2 (amended): for every health update the derived status is
DEGRADED exactly when the new latency exceeds 300ms and ALIVE otherwise,
independently of the remaining quota; HALTED is never derived. The remaining
quota decrements by one, floored at 0. -/
theorem c2_health_status (noise : ℚ) (h : Health) :
    ((updateHealth noise h).status = HealthStatus.DEGRADED ↔
      300 < (updateHealth noise h).latencyMs) ∧
    ((updateHealth noise h).status = HealthStatus.ALIVE ↔
      (updateHealth noise h).latencyMs ≤ 300) ∧
    (updateHealth noise h).status ≠ HealthStatus.HALTED ∧
    (updateHealth noise h).apiRequestsRemaining = max 0 (h.apiRequestsRemaining - 1) := by
  have hstat : (updateHealth noise h).status =
      (if 300 < max 20 ⌊h.latencyMs + noise⌋ then HealthStatus.DEGRADED
       else HealthStatus.ALIVE) := by
    simp [updateHealth]
  have hlat : (updateHealth noise h).latencyMs = ((max 20 ⌊h.latencyMs + noise⌋ : ℤ) : ℚ) := by
    simp [updateHealth]
  have hapi : (updateHealth noise h).apiRequestsRemaining =
      max 0 (h.apiRequestsRemaining - 1) := by
    simp [updateHealth]
  rw [hstat, hlat, hapi]
  by_cases hc : (300 : ℤ) < max 20 ⌊h.latencyMs + noise⌋
  · rw [if_pos hc]
    refine ⟨⟨fun _ => by exact_mod_cast hc, fun _ => rfl⟩,
      ⟨fun hs => absurd hs (by decide),
       fun hle => absurd hc (not_lt.mpr (by exact_mod_cast hle))⟩,
      by decide, rfl⟩
  · rw [if_neg hc]
    refine ⟨⟨fun hs => absurd hs (by decide),
       fun hlt => absurd (by exact_mod_cast hlt : (300 : ℤ) < max 20 ⌊h.latencyMs + noise⌋) hc⟩,
      ⟨fun _ => by exact_mod_cast not_lt.mp hc, fun _ => rfl⟩,
      by decide, rfl⟩

/-! ### C3 — release before completion -/

/-- Claim C3: if the press is released after `n` interval ticks during which
the accumulated progress always stayed strictly below 100%, the bound
destructive callback has fired zero times for that press, the progress is
fully reset to zero by the release, and a subsequent press starts again from
zero progress. -/
theorem c3_release_before_complete (n : ℕ)
    (h : ∀ k, k ≤ n → (gateTick^[k] freshPress).progress < 100) :
    (endPress (gateTick^[n] freshPress)).fired = 0 ∧
    (endPress (gateTick^[n] freshPress)).progress = 0 ∧
    (startPress (endPress (gateTick^[n] freshPress))).progress = 0 := by
  have hn : n ≤ 15 := by
    by_contra hgt
    have h16 : 16 ≤ n := by omega
    have h100 := h 16 h16
    rw [gateAfter_spec] at h100
    simp only [gateAfter, if_pos (by omega : (16 : ℕ) ≤ 16)] at h100
    norm_num at h100
  have h16 : n ≤ 16 := by omega
  rw [gateAfter_spec]
  simp [gateAfter, endPress, startPress, h16]

/-- Witness for `c3_release_before_complete` with a release after 3 ticks. -/
theorem c3_release_before_complete_witness :
    (∀ k, k ≤ 3 → (gateTick^[k] freshPress).progress < 100) ∧
    ((endPress (gateTick^[3] freshPress)).fired = 0 ∧
     (endPress (gateTick^[3] freshPress)).progress = 0 ∧
     (startPress (endPress (gateTick^[3] freshPress))).progress = 0) := by
  have h : ∀ k, k ≤ 3 → (gateTick^[k] freshPress).progress < 100 := by
    intro k hk
    rw [gateAfter_spec]
    have hk16 : k ≤ 16 := by omega
    simp only [gateAfter, if_pos hk16]
    have : (k : ℚ) ≤ 3 := by exact_mod_cast hk
    nlinarith
  exact ⟨h, c3_release_before_complete 3 h⟩

/-! ### C4 — uninterrupted hold -/

/-- Claim C4 counterexample: after 16 interval ticks — 800ms of timer time,
the full hold duration, with progress at 100% — the callback has fired zero
times; it fires only on the 17th tick, at 850ms. -/
theorem c4_counterexample :
    (gateTick^[16] freshPress).progress = 100 ∧
    (gateTick^[16] freshPress).fired = 0 ∧
    (gateTick^[17] freshPress).fired = 1 := by
  rw [gateAfter_spec, gateAfter_spec]
  refine ⟨?_, ?_, ?_⟩ <;> simp [gateAfter] <;> norm_num

/-- Claim C4 (amended): an uninterrupted press advances progress in fixed
steps of 100/(800/50) = 6.25 percentage points per 50ms tick for the first
16 ticks (reaching 100% at 800ms); the callback fires exactly once, on the
17th tick (850ms) — the first tick that observes progress ≥ 100 — after
which progress is reset to 0 and the interval timer is stopped. -/
theorem c4_hold_timer (n : ℕ) :
    (gateTick^[n] freshPress).progress = (if n ≤ 16 then 25 / 4 * (n : ℚ) else 0) ∧
    (gateTick^[n] freshPress).fired = (if n ≤ 16 then 0 else 1) ∧
    (gateTick^[n] freshPress).timerActive = (if n ≤ 16 then true else false) ∧
    (gateTick^[n + 1] freshPress).progress =
      (if n ≤ 15 then (gateTick^[n] freshPress).progress + 100 / (HOLD_DURATION / 50)
       else 0) := by
  rw [gateAfter_spec, gateAfter_spec]
  by_cases h : n ≤ 16
  · by_cases h15 : n ≤ 15
    · have h1 : n + 1 ≤ 16 := by omega
      simp only [gateAfter, if_pos h, if_pos h1, if_pos h15, HOLD_DURATION, true_and]
      push_cast
      ring_nf
    · have hn : n = 16 := by omega
      subst hn
      norm_num [gateAfter]
  · have h1 : ¬ (n + 1 ≤ 16) := by omega
    have h15 : ¬ (n ≤ 15) := by omega
    simp [gateAfter, h, h1, h15]

/-! ### C5 — ring-log capacity -/

/-- A generic log entry used to fill the log to its claimed capacity. -/
def fillEntry : LogMessage :=
  { id := 0, timestamp := "t", level := LogLevel.INFO, message := "Strategy Heartbeat" }

/-- A dashboard whose log already holds exactly 50 entries. -/
def dashFullLog : DashboardData :=
  { dailyPnL := 1240.50, winRate := 68, health := healthLastQuota,
    positions := [posBTC], logs := List.replicate 50 fillEntry }

/-- Claim C5 (code bug): a liquidation append on a log already holding the
claimed capacity of 50 entries leaves 51 entries — `closePosition` appends
without evicting — and a subsequent tick append (which evicts a single
oldest entry) still leaves 51 entries, so the log never returns to 50. -/
theorem c5_log_capacity_violated :
    (closePosition "1" "BTC/USD" 99 "t" dashFullLog).logs.length = 51 ∧
    (tickAppendLog fillEntry
      (closePosition "1" "BTC/USD" 99 "t" dashFullLog).logs).length = 51 := by
  have h51 : (closePosition "1" "BTC/USD" 99 "t" dashFullLog).logs.length = 51 := by
    simp [closePosition, dashFullLog]
  refine ⟨h51, ?_⟩
  unfold tickAppendLog
  rw [if_pos (by rw [List.length_append, h51]; norm_num)]
  rw [List.length_drop, List.length_append, h51]
  simp

/-! ### C8 — remove on an absent id -/

/-- The initial log entries of `src/unnamed/part_000` (lines 171-174). -/
def initLogs : List LogMessage :=
  [{ id := 1, timestamp := "t1", level := LogLevel.INFO, message := "System initialized" },
   { id := 2, timestamp := "t2", level := LogLevel.INFO, message := "Connected to Kraken WS" }]

/-- A dashboard holding only the BTC position, used as the concrete book for
the remove-on-absent-id claim. -/
def dashBTC : DashboardData :=
  { dailyPnL := 1240.50, winRate := 68, health := healthLastQuota,
    positions := [posBTC], logs := initLogs }

/-- Claim C8 counterexample: removing the absent id "99" leaves the book
unchanged but still appends a liquidation entry to the log — the remove is
not silent, contradicting that nothing is appended for a failed remove. -/
theorem c8_counterexample :
    (closePosition "99" "ETH/USD" 5 "t" dashBTC).positions = dashBTC.positions ∧
    (closePosition "99" "ETH/USD" 5 "t" dashBTC).logs.length = dashBTC.logs.length + 1 := by
  constructor
  · simp [closePosition, dashBTC, posBTC]
  · simp [closePosition, dashBTC, initLogs]

/-- Claim C8 (amended): removing an id absent from the book signals nothing
and leaves the set of positions exactly unchanged (a local no-op, never
fatal), but unconditionally appends one WARN liquidation entry to the log. -/
theorem c8_remove_absent (d : DashboardData) (id sym : String) (now : ℤ) (ts : String)
    (habs : ∀ p ∈ d.positions, p.id ≠ id) :
    (closePosition id sym now ts d).positions = d.positions ∧
    (closePosition id sym now ts d).logs =
      d.logs ++ [{ id := now, timestamp := ts, level := LogLevel.WARN,
                   message := "MANUAL LIQUIDATION: " ++ sym ++ " CLOSED" }] := by
  refine ⟨?_, rfl⟩
  apply List.filter_eq_self.mpr
  intro p hp
  simpa using habs p hp

/-- Witness for `c8_remove_absent` on the concrete book holding only the
position with id "1" and the absent id "99". -/
theorem c8_remove_absent_witness :
    (∀ p ∈ dashBTC.positions, p.id ≠ "99") ∧
    ((closePosition "99" "ETH/USD" 5 "t" dashBTC).positions = dashBTC.positions ∧
     (closePosition "99" "ETH/USD" 5 "t" dashBTC).logs =
       dashBTC.logs ++ [{ id := 5, timestamp := "t", level := LogLevel.WARN,
                          message := "MANUAL LIQUIDATION: " ++ "ETH/USD" ++ " CLOSED" }]) := by
  have habs : ∀ p ∈ dashBTC.positions, p.id ≠ "99" := by
    intro p hp
    simp [dashBTC, posBTC] at hp
    simp [hp, posBTC]
  exact ⟨habs, c8_remove_absent dashBTC "99" "ETH/USD" 5 "t" habs⟩

/-! ### C9 — frame of the per-position tick -/

/-- Claim C9 counterexample: the per-position tick leaves `durationMinutes`
and `markPrice` exactly unchanged on the BTC position (duration is never
advanced by a tick, and the mark price is never mutated), contradicting the
claim that both are among the mutated fields. -/
theorem c9_counterexample :
    (tickPosition 1 2 posBTC).durationMinutes = posBTC.durationMinutes ∧
    (tickPosition 1 2 posBTC).markPrice = posBTC.markPrice ∧
    ¬ posBTC.durationMinutes < (tickPosition 1 2 posBTC).durationMinutes := by
  refine ⟨rfl, rfl, ?_⟩
  simp [tickPosition]

/-- Claim C9 (amended): a tick never creates or destroys a position (the
list of ids and the book size are preserved), and the per-position mutation
changes exactly `pnl` (by the injected delta) and `priceHistory` (drop the
oldest sample, append one new sample, length preserved for the 8-sample
histories of this repository); `id`, `symbol`, `side`, `entryPrice`,
`markPrice`, `zScore`, `durationMinutes` and `maxDurationMinutes` all stay
unchanged. -/
theorem c9_tick_frame (pd hd : Position → ℚ) (ps : List Position)
    (dp dh : ℚ) (p : Position) (hlen : p.priceHistory.length = 8) :
    (tickPositions pd hd ps).map Position.id = ps.map Position.id ∧
    (tickPositions pd hd ps).length = ps.length ∧
    (tickPosition dp dh p).id = p.id ∧
    (tickPosition dp dh p).symbol = p.symbol ∧
    (tickPosition dp dh p).side = p.side ∧
    (tickPosition dp dh p).entryPrice = p.entryPrice ∧
    (tickPosition dp dh p).markPrice = p.markPrice ∧
    (tickPosition dp dh p).zScore = p.zScore ∧
    (tickPosition dp dh p).durationMinutes = p.durationMinutes ∧
    (tickPosition dp dh p).maxDurationMinutes = p.maxDurationMinutes ∧
    (tickPosition dp dh p).pnl = p.pnl + dp ∧
    (tickPosition dp dh p).priceHistory =
      p.priceHistory.drop 1 ++ [p.priceHistory.getD 7 0 + dh] ∧
    (tickPosition dp dh p).priceHistory.length = 8 := by
  refine ⟨?_, ?_, rfl, rfl, rfl, rfl, rfl, rfl, rfl, rfl, rfl, rfl, ?_⟩
  · unfold tickPositions
    rw [List.map_map]
    rfl
  · simp [tickPositions]
  · simp [tickPosition, hlen]

/-- Witness for `c9_tick_frame` on the singleton book holding the BTC
position, with unit deltas. -/
theorem c9_tick_frame_witness :
    posBTC.priceHistory.length = 8 ∧
    ((tickPositions (fun _ => 1) (fun _ => 2) [posBTC]).map Position.id =
       [posBTC].map Position.id ∧
     (tickPositions (fun _ => 1) (fun _ => 2) [posBTC]).length = [posBTC].length ∧
     (tickPosition 1 2 posBTC).id = posBTC.id ∧
     (tickPosition 1 2 posBTC).symbol = posBTC.symbol ∧
     (tickPosition 1 2 posBTC).side = posBTC.side ∧
     (tickPosition 1 2 posBTC).entryPrice = posBTC.entryPrice ∧
     (tickPosition 1 2 posBTC).markPrice = posBTC.markPrice ∧
     (tickPosition 1 2 posBTC).zScore = posBTC.zScore ∧
     (tickPosition 1 2 posBTC).durationMinutes = posBTC.durationMinutes ∧
     (tickPosition 1 2 posBTC).maxDurationMinutes = posBTC.maxDurationMinutes ∧
     (tickPosition 1 2 posBTC).pnl = posBTC.pnl + 1 ∧
     (tickPosition 1 2 posBTC).priceHistory =
       posBTC.priceHistory.drop 1 ++ [posBTC.priceHistory.getD 7 0 + 2] ∧
     (tickPosition 1 2 posBTC).priceHistory.length = 8) :=
  ⟨rfl, c9_tick_frame (fun _ => 1) (fun _ => 2) [posBTC] 1 2 posBTC rfl⟩

/-! ### C6 — drawdown severity -/

/-- Claim C6: for current and maximum drawdown both ≤ 0 with nonzero
maximum, the severity from ratio = |current/maximum| is CRITICAL iff
ratio > 0.8, WARNING iff 0.5 < ratio ≤ 0.8 and NORMAL iff ratio ≤ 0.5;
in particular current = -450 with maximum = -500 (ratio 0.9) is CRITICAL. -/
theorem c6_drawdown_severity (c m : ℚ) (hc : c ≤ 0) (hm0 : m ≤ 0) (hm : m ≠ 0) :
    ((getDrawdownColor c m = critColor) ↔ 0.8 < |c / m|) ∧
    ((getDrawdownColor c m = warnColor) ↔ (0.5 < |c / m| ∧ |c / m| ≤ 0.8)) ∧
    ((getDrawdownColor c m = normColor) ↔ |c / m| ≤ 0.5) ∧
    getDrawdownColor (-450) (-500) = critColor := by
  refine ⟨getDrawdownColor_crit_iff c m, getDrawdownColor_warn_iff c m,
    getDrawdownColor_norm_iff c m, ?_⟩
  · rw [getDrawdownColor_crit_iff]
    rw [abs_of_nonneg (by norm_num : (0 : ℚ) ≤ (-450) / (-500))]
    norm_num

/-- Witness for `c6_drawdown_severity` at the scenario input
current = -450, maximum = -500. -/
theorem c6_drawdown_severity_witness :
    ((-450 : ℚ) ≤ 0 ∧ (-500 : ℚ) ≤ 0 ∧ (-500 : ℚ) ≠ 0) ∧
    (((getDrawdownColor (-450) (-500) = critColor) ↔ 0.8 < |(-450 : ℚ) / (-500)|) ∧
     ((getDrawdownColor (-450) (-500) = warnColor) ↔
       (0.5 < |(-450 : ℚ) / (-500)| ∧ |(-450 : ℚ) / (-500)| ≤ 0.8)) ∧
     ((getDrawdownColor (-450) (-500) = normColor) ↔ |(-450 : ℚ) / (-500)| ≤ 0.5) ∧
     getDrawdownColor (-450) (-500) = critColor) :=
  ⟨by norm_num, c6_drawdown_severity (-450) (-500) (by norm_num) (by norm_num) (by norm_num)⟩

/-! ### C7 — staleness classification -/

/-- Claim C7: for max duration > 0, a position is STALE exactly when its
duration exceeds the maximum; the time tier is CRITICAL exactly then,
WARNING when duration exceeds 80% of the maximum without exceeding it, and
NORMAL otherwise; the displayed progress percentage equals 100 times
min(1, duration/max). Duration 40 of max 45 is WARNING (and not stale);
duration 46 of max 45 is STALE and CRITICAL. -/
theorem c7_staleness (d m : ℚ) (hm : 0 < m) :
    (isStale d m = true ↔ m < d) ∧
    ((getTimeColor d m = critColor) ↔ m < d) ∧
    ((getTimeColor d m = warnColor) ↔ (m * 0.8 < d ∧ d ≤ m)) ∧
    ((getTimeColor d m = normColor) ↔ d ≤ m * 0.8) ∧
    staleProgress d m = 100 * min 1 (d / m) ∧
    getTimeColor 40 45 = warnColor ∧ isStale 40 45 = false ∧
    getTimeColor 46 45 = critColor ∧ isStale 46 45 = true := by
  refine ⟨?_, getTimeColor_crit_iff d m, ?_, ?_, ?_, ?_, ?_, ?_, ?_⟩
  · simp [isStale]
  · rw [getTimeColor_warn_iff]
    exact and_comm
  · rw [getTimeColor_norm_iff]
    constructor
    · rintro ⟨_, h2⟩
      exact h2
    · intro h
      exact ⟨h.trans (by nlinarith), h⟩
  · unfold staleProgress
    rw [mul_comm (100 : ℚ) (min 1 (d / m)), min_mul_of_nonneg _ _ (by norm_num : (0 : ℚ) ≤ 100)]
    norm_num [mul_comm]
  · exact (getTimeColor_warn_iff _ _).mpr (by norm_num)
  · norm_num [isStale]
  · exact (getTimeColor_crit_iff _ _).mpr (by norm_num)
  · norm_num [isStale]

/-- Witness for `c7_staleness` at the scenario input duration 40, max 45. -/
theorem c7_staleness_witness :
    (0 : ℚ) < 45 ∧
    ((isStale 40 45 = true ↔ (45 : ℚ) < 40) ∧
     ((getTimeColor 40 45 = critColor) ↔ (45 : ℚ) < 40) ∧
     ((getTimeColor 40 45 = warnColor) ↔ ((45 : ℚ) * 0.8 < 40 ∧ (40 : ℚ) ≤ 45)) ∧
     ((getTimeColor 40 45 = normColor) ↔ (40 : ℚ) ≤ 45 * 0.8) ∧
     staleProgress 40 45 = 100 * min 1 ((40 : ℚ) / 45) ∧
     getTimeColor 40 45 = warnColor ∧ isStale 40 45 = false ∧
     getTimeColor 46 45 = critColor ∧ isStale 46 45 = true) :=
  ⟨by norm_num, c7_staleness 40 45 (by norm_num)⟩

/-! ### C10 — reachable drawdown states -/

/-- Inductive invariant of the `TradingMonitor.tsx` simulation: the maximum
drawdown is the constant -500 and the clamp keeps the current drawdown at or
above it in every reachable state. -/
lemma reachableTD_invariant (d : TradingData) (h : ReachableTD d) :
    d.maxDrawdown = -500 ∧ d.maxDrawdown ≤ d.currentDrawdown := by
  induction h with
  | init ts =>
      constructor <;> norm_num [initTradingData]
  | step r1 r2 ts d hr1 hr1' hr2 hr2' hd ih =>
      exact ⟨ih.1, le_max_right _ _⟩

/-- Claim C10 (amended): in every reachable state the current drawdown is at
least the maximum drawdown (the per-tick clamp bounds it below), so whenever
the current drawdown is still nonpositive the ratio |current/max| is at most
1; the tick does not bound the current drawdown above, so it can leave the
nonpositive range (see the counterexample). -/
theorem c10_drawdown_invariant (d : TradingData) (h : ReachableTD d) :
    d.currentDrawdown ≥ d.maxDrawdown ∧ d.maxDrawdown = -500 ∧
    (d.currentDrawdown ≤ 0 → |d.currentDrawdown / d.maxDrawdown| ≤ 1) := by
  obtain ⟨hmax, hle⟩ := reachableTD_invariant d h
  refine ⟨hle, hmax, fun hc => ?_⟩
  rw [hmax] at hle ⊢
  rw [abs_div, abs_of_nonpos hc, abs_of_nonpos (by norm_num : (-500 : ℚ) ≤ 0),
    div_le_one (by norm_num : (0 : ℚ) < -(-500))]
  linarith

/-- Witness for `c10_drawdown_invariant` at the initial state. -/
theorem c10_drawdown_invariant_witness :
    ReachableTD (initTradingData "t0") ∧
    ((initTradingData "t0").currentDrawdown ≥ (initTradingData "t0").maxDrawdown ∧
     (initTradingData "t0").maxDrawdown = -500 ∧
     ((initTradingData "t0").currentDrawdown ≤ 0 →
       |(initTradingData "t0").currentDrawdown / (initTradingData "t0").maxDrawdown| ≤ 1)) :=
  ⟨ReachableTD.init "t0",
   c10_drawdown_invariant (initTradingData "t0") (ReachableTD.init "t0")⟩

/-- One simulation tick with both random draws fixed: the daily P&L draw at
1/2 and the drawdown draw at 19/20, so the current drawdown gains
(19/20 - 1/2) * 20 = 9 per tick. -/
def driftTick (d : TradingData) : TradingData := tickTradingData (1/2) (19/20) "t" d

/-- Closed form of the drifting run: after `n` ticks the current drawdown is
-150 + 9n and the maximum drawdown is still -500. -/
lemma driftTick_closed_form (n : ℕ) :
    (driftTick^[n] (initTradingData "t0")).currentDrawdown = -150 + 9 * n ∧
    (driftTick^[n] (initTradingData "t0")).maxDrawdown = -500 := by
  induction n with
  | zero =>
      constructor <;> norm_num [initTradingData]
  | succ n ih =>
      obtain ⟨ihc, ihm⟩ := ih
      have hstep : driftTick^[n + 1] (initTradingData "t0") =
          tickTradingData (1/2) (19/20) "t" (driftTick^[n] (initTradingData "t0")) := by
        rw [Function.iterate_succ_apply']
        rfl
      have hcd : (tickTradingData (1/2) (19/20) "t"
            (driftTick^[n] (initTradingData "t0"))).currentDrawdown =
          max ((driftTick^[n] (initTradingData "t0")).currentDrawdown + (19/20 - 0.5) * 20)
            (driftTick^[n] (initTradingData "t0")).maxDrawdown := rfl
      have hmd : (tickTradingData (1/2) (19/20) "t"
            (driftTick^[n] (initTradingData "t0"))).maxDrawdown =
          (driftTick^[n] (initTradingData "t0")).maxDrawdown := rfl
      rw [hstep, hcd, hmd, ihc, ihm]
      have hn0 : (0 : ℚ) ≤ (n : ℚ) := Nat.cast_nonneg n
      constructor
      · rw [max_eq_left (by linarith)]
        push_cast
        ring
      · rfl

/-- Claim C10 counterexample: 73 drifting ticks (each `Math.random()` draw
inside `[0, 1)`) take the current drawdown from -150 up to +507, a reachable
state where the drawdown ratio is 507/500 > 1 — the clamp bounds the
drawdown only from below. -/
theorem c10_counterexample :
    ReachableTD (driftTick^[73] (initTradingData "t0")) ∧
    1 < |(driftTick^[73] (initTradingData "t0")).currentDrawdown /
          (driftTick^[73] (initTradingData "t0")).maxDrawdown| := by
  constructor
  · have hreach : ∀ n : ℕ, ReachableTD (driftTick^[n] (initTradingData "t0")) := by
      intro n
      induction n with
      | zero => exact ReachableTD.init "t0"
      | succ n ih =>
          rw [Function.iterate_succ_apply']
          exact ReachableTD.step (1/2) (19/20) "t" _
            (by norm_num) (by norm_num) (by norm_num) (by norm_num) ih
    exact hreach 73
  · obtain ⟨hc, hm⟩ := driftTick_closed_form 73
    push_cast at hc
    rw [hc, hm]
    rw [show ((-150 : ℚ) + 9 * 73) / (-500) = -(507 / 500) by norm_num]
    rw [abs_neg, abs_of_nonneg (by norm_num : (0 : ℚ) ≤ 507 / 500)]
    norm_num
